import Mathlib

/-!
Verification development for the Fleetline agent pipeline
(backend/app/agent): a shallow embedding in Lean 4 of the data model
(backend/app/agent/state.py) and the pipeline stages
(backend/app/agent/nodes/{search,prioritize,synthesize,enrich_images,format_output}.py),
together with theorems settling the specification's claims about them.

Modelling conventions:
* Python strings are Lean `String`; `str.lower()` is modelled by
  `String.toLower` and `str.strip()` by `String.trim` (exact for the ASCII
  inputs at issue).
* Credibility scores in the source are floats of the form `11.0 - float(rank)`
  or `0.0`; every value the code ever computes is integral and exactly
  representable, so scores are modelled as `Int`.
* Fallible Python code is embedded in `Except PyExc`; an uncaught exception is
  an `Except.error` value.
* The pydantic models of state.py reject reads and writes of undeclared
  attributes: reading raises `AttributeError`, assignment raises `ValueError`
  ("object has no field ..."). `SearchResult` declares no field
  `reputability_score` and `AgentState` declares no field `ranked_results`,
  so the corresponding accesses in prioritize.py are embedded as errors.
-/

/-- One web search result, mirroring `SearchResult` of state.py: required
`title/url/snippet/domain` plus the optional contextual fields. The model
declares no `reputability_score` field. -/
structure SearchResult where
  title : String
  url : String
  snippet : String
  domain : String
  extended_snippet : Option String := none
  snippet_highlighted : Option (List String) := none
  position : Option Int := none
  date : Option String := none
  cite : Option String := none
  thumbnail : Option String := none
  breadcrumb : Option String := none
  keywords : Option (List String) := none
  cached_link : Option String := none
deriving Repr, DecidableEq

/-- A synthesized citation, mirroring `Citation` of state.py. -/
structure Citation where
  id : Int
  title : String
  url : String
  image : Option String := none
  extended_snippet : Option String := none
deriving Repr, DecidableEq

/-- One conversation turn, mirroring the `{role, content}` dicts stored in
`AgentState.history`. -/
structure Turn where
  role : String
  content : String
deriving Repr, DecidableEq

/-- One topic entry, mirroring the `{"title": str, "content": str}` dicts that
synthesize.py validates into `state.topics`. -/
structure Topic where
  title : String
  content : String
deriving Repr, DecidableEq

/-- The final payload dict built by format_output.py (lines 42-51 and 60-67).
`sources` holds the citations as serialized by `model_dump(mode="json")`,
which renders a `Citation` field-for-field; the dump is modelled by the
`Citation` value itself. -/
structure Payload where
  question : String
  overview : String
  overview_image : Option String
  topics : List Topic
  sources : List Citation
  timestamp : String
deriving Repr, DecidableEq

/-- The pipeline state, mirroring `AgentState` of state.py field for field.
It declares no `ranked_results` field. -/
structure AgentState where
  query : String
  history : List Turn := []
  results : Option (List SearchResult) := none
  answer : Option String := none
  overview : Option String := none
  overview_image : Option String := none
  topics : Option (List Topic) := none
  citations : Option (List Citation) := none
  final_payload : Option Payload := none
deriving Repr, DecidableEq

/-- Python exceptions that the embedded stages can raise or catch. -/
inductive PyExc where
  /-- `json.JSONDecodeError` from `json.loads` on an unparseable string. -/
  | jsonDecodeError
  /-- `requests.exceptions.RequestException` (transport errors; also
  `response.raise_for_status()` and `response.json()` failures, whose
  exception classes derive from it). -/
  | requestException
  /-- pydantic `ValueError`: assignment to an attribute the model does not
  declare ("object has no field ..."). -/
  | valueErrorNoField (field : String)
  /-- `AttributeError`: read of an attribute the model does not declare. -/
  | attributeErrorNoField (field : String)
deriving Repr, DecidableEq

/-- Python truthiness on an optional string: `None` and `""` are falsy.
Sends a falsy value to `none` and keeps a truthy one. -/
def toTruthy (o : Option String) : Option String :=
  match o with
  | some s => if s = "" then none else some s
  | none => none

/-- Python `a or b` on two optional strings (used for the image-field
preference chains): the left value when truthy, else the right one. -/
def pyOr (a b : Option String) : Option String :=
  match a with
  | some s => if s = "" then b else some s
  | none => b

/-- Prioritization cap: config.py `PRIORITIZE_MAX_RESULTS` default 5. -/
def PRIORITIZE_MAX_RESULTS : Nat := 5

/-- Whether the character list `p` is an initial run of `s` (the core of
Python's `str.startswith`). -/
def hasLead : List Char → List Char → Bool
  | [], _ => true
  | _ :: _, [] => false
  | p :: ps, c :: cs => p == c && hasLead ps cs

/-- Python `s.lower()` (ASCII letters; the URLs at issue are ASCII). -/
def strLower (s : String) : String :=
  String.mk (s.data.map Char.toLower)

/-- Python `s.strip()`: surrounding whitespace removed. -/
def strTrim (s : String) : String :=
  String.mk ((s.data.dropWhile Char.isWhitespace).reverse.dropWhile Char.isWhitespace).reverse

/-- Python `s.startswith(pat)`. -/
def strStarts (s pat : String) : Bool :=
  hasLead pat.data s.data

/-- Python `s.endswith(pat)`. -/
def strEnds (s pat : String) : Bool :=
  hasLead pat.data.reverse s.data.reverse

/-- Python `s[n:]` (drop the first `n` characters). -/
def strDrop (s : String) (n : Nat) : String :=
  String.mk (s.data.drop n)

/-- Python `s[:-n]` (drop the last `n` characters). -/
def strDropRight (s : String) (n : Nat) : String :=
  String.mk (s.data.reverse.drop n).reverse

/-- Python `s.rstrip("/")`: ALL trailing slashes removed. -/
def rstripSlashes (s : String) : String :=
  String.mk (s.data.reverse.dropWhile (fun c => c = '/')).reverse

/-- Mirrors `_normalize_url` of prioritize.py lines 15-25: empty input maps
to `""`; otherwise lower-case, strip surrounding whitespace, strip ALL
trailing slashes (`str.rstrip("/")`), drop a leading `http://` and then a
leading `https://` (the source loops over both), and drop a leading `www.`. -/
def _normalize_url (url : String) : String :=
  if url = "" then ""
  else
    let u := rstripSlashes (strTrim (strLower url))
    let u := ["http://", "https://"].foldl
      (fun v sch => if strStarts v sch then strDrop v sch.data.length else v) u
    if strStarts u "www." then strDrop u 4 else u

/-- Models `n.split("/")[0]`: the part of a normalized URL before the first
slash (the whole string when it has no slash). -/
def firstSegment (s : String) : String :=
  String.mk (s.data.takeWhile (fun c => c ≠ '/'))

/-- Mirrors `_match_url` of prioritize.py lines 28-34: true when the
normalized forms are equal, else when the first path segments are equal. -/
def _match_url (llm_url result_url : String) : Bool :=
  let n1 := _normalize_url llm_url
  let n2 := _normalize_url result_url
  if n1 = n2 then true
  else firstSegment n1 == firstSegment n2

/-- Modelled from the claim's words (C4): the same normalization but
stripping only a SINGLE trailing slash. Used to exhibit where the claim's
wording diverges from the source. -/
def claimNormalizeSingleSlash (url : String) : String :=
  if url = "" then ""
  else
    let u := strTrim (strLower url)
    let u := if strEnds u "/" then strDropRight u 1 else u
    let u := ["http://", "https://"].foldl
      (fun v sch => if strStarts v sch then strDrop v sch.data.length else v) u
    if strStarts u "www." then strDrop u 4 else u

/-- Modelled from the amended claim's words (C4): lower-case, strip
surrounding whitespace, strip all trailing slashes, strip a leading
`http://` and then a leading `https://`, strip a leading `www.`. -/
def amendedNormalize (url : String) : String :=
  if url = "" then ""
  else
    let lowered := strLower url
    let stripped := strTrim lowered
    let noSlash := rstripSlashes stripped
    let noHttp := if strStarts noSlash "http://" then strDrop noSlash 7 else noSlash
    let noScheme := if strStarts noHttp "https://" then strDrop noHttp 8 else noHttp
    if strStarts noScheme "www." then strDrop noScheme 4 else noScheme

/-- One entry of a SERP `images` list, with the URL-bearing fields that
search.py lines 84-88 reads (`original`, `link`, `thumbnail`); `none` models
a missing or non-string field. -/
structure SerpImage where
  original : Option String := none
  link : Option String := none
  thumbnail : Option String := none
deriving Repr, DecidableEq

/-- One entry of the SERP `organic` list, with the fields search.py reads.
`none` models a missing field (or one failing the source's isinstance
check, for `snippet_highlighted` and `position`); `about_keywords` models
`about_this_result.get("keywords", [])` with `[]` for a missing or
non-dict `about_this_result`. -/
structure SerpOrganic where
  link : Option String := none
  title : Option String := none
  description : Option String := none
  snippet : Option String := none
  about_keywords : List String := []
  snippet_highlighted : Option (List String) := none
  position : Option Int := none
  date : Option String := none
  cite : Option String := none
  thumbnail : Option String := none
  image : Option String := none
  og_image : Option String := none
  preview_image : Option String := none
  breadcrumb : Option String := none
  cached_page_link : Option String := none
deriving Repr, DecidableEq

/-- The parsed Bright Data SERP body, with the three sections search.py
reads: `knowledge_graph.image` (when `knowledge_graph` is a dict whose
`image` is a string, else `none`), `images` and `organic`. -/
structure SerpBody where
  knowledge_graph_image : Option String := none
  images : List SerpImage := []
  organic : List SerpOrganic := []
deriving Repr, DecidableEq

/-- The search provider interaction as search.py sees it. -/
inductive ProviderResponse where
  /-- The POST raised a `requests.exceptions.RequestException` (network
  error, `raise_for_status`, or a `response.json()` failure, whose class
  derives from it). -/
  | transportError
  /-- The provider envelope's `body` field is already parsed JSON. -/
  | bodyJson (b : SerpBody)
  /-- The provider envelope's `body` field is a string; `parsed` is what
  `json.loads` yields on it (`none` when the string is not valid JSON and
  `json.loads` raises `json.JSONDecodeError`). -/
  | bodyString (raw : String) (parsed : Option SerpBody)
deriving Repr, DecidableEq

/-- Models `urllib.parse.urlparse(link).netloc` for ordinary http(s) URLs:
the segment after the first `"://"` up to the next slash, and `""` when the
link carries no scheme. -/
def netloc (u : String) : String :=
  match u.splitOn "://" with
  | _ :: rest :: _ => firstSegment rest
  | _ => ""

/-- Mirrors search.py lines 70-109: the overview-image preference order
knowledge-graph image, then first `images` entry (`original or link or
thumbnail`), then top organic result's `thumbnail` else `image`, `og_image`,
`preview_image` in order; each candidate must be truthy. -/
def extractOverviewImage (body : SerpBody) : Option String :=
  match toTruthy body.knowledge_graph_image with
  | some s => some s
  | none =>
    let tier2 := match body.images with
      | [] => none
      | i :: _ => toTruthy (pyOr (pyOr i.original i.link) i.thumbnail)
    match tier2 with
    | some s => some s
    | none =>
      match body.organic with
      | [] => none
      | top :: _ =>
        match toTruthy top.thumbnail with
        | some s => some s
        | none =>
          [top.image, top.og_image, top.preview_image].foldl
            (fun acc fld => match acc with
              | some s => some s
              | none => toTruthy fld) none

/-- Mirrors search.py lines 124-155: build one `SearchResult` from an
organic entry (called only for entries with a truthy link). -/
def resultOfOrganic (r : SerpOrganic) : SearchResult :=
  let link := r.link.getD ""
  let description := r.description.getD ""
  let snippet := r.snippet.getD ""
  { title := r.title.getD ""
    url := link
    snippet := if description ≠ "" then description else snippet
    domain := netloc link
    extended_snippet :=
      if snippet ≠ "" then some snippet
      else if description ≠ "" then some description else none
    snippet_highlighted := r.snippet_highlighted
    position := r.position
    date := r.date
    cite := r.cite
    thumbnail := r.thumbnail
    breadcrumb := r.breadcrumb
    keywords := if r.about_keywords = [] then none else some r.about_keywords
    cached_link := r.cached_page_link }

/-- Mirrors search.py lines 70-155 inside the `try`: store the overview
image, then the results built from the first 10 organic entries that have a
truthy `link`. -/
def searchProcessBody (b : SerpBody) (s : AgentState) : AgentState :=
  let s := { s with overview_image := extractOverviewImage b }
  let organic := b.organic.take 10
  let kept := (organic.filter (fun r => r.link.getD "" ≠ "")).map resultOfOrganic
  { s with results := some kept }

/-- Mirrors `search` of search.py lines 14-161. Missing credentials or zone:
`results = []`. A transport error is caught by the sole handler
(`except requests.exceptions.RequestException`, line 156) and degrades to
`results = []`. A string `body` that is not valid JSON makes `json.loads`
(line 67) raise `json.JSONDecodeError`, which that handler does NOT catch,
so the exception propagates out of the stage. -/
def search (hasApiKey hasZone : Bool) (resp : ProviderResponse) (s : AgentState) :
    Except PyExc AgentState :=
  if ¬ hasApiKey then .ok { s with results := some [] }
  else if ¬ hasZone then .ok { s with results := some [] }
  else
    match resp with
    | .transportError => .ok { s with results := some [] }
    | .bodyJson b => .ok (searchProcessBody b s)
    | .bodyString _ (some b) => .ok (searchProcessBody b s)
    | .bodyString _ none => .error .jsonDecodeError

/-- Python dict insertion (`m[k] = v`): overwrite the key when present,
else append. -/
def dictInsert {β : Type} : List (String × β) → String → β → List (String × β)
  | [], k, v => [(k, v)]
  | (k', v') :: rest, k, v =>
    if k' = k then (k, v) :: rest else (k', v') :: dictInsert rest k v

/-- Python `m.get(k)` on an association-list dict. -/
def dictGet {β : Type} (m : List (String × β)) (k : String) : Option β :=
  (m.find? (fun p => p.1 = k)).map (fun p => p.2)

/-- Insert `x` into `l` after every element whose key is ≤ its key: the
insertion step of a stable ascending sort. -/
def insertByKey {α : Type} (key : α → Int) (x : α) : List α → List α
  | [] => [x]
  | y :: ys => if key y ≤ key x then y :: insertByKey key x ys else x :: y :: ys

/-- Stable ascending sort by an integer key, modelling Python's
`sorted(l, key=key)` (Python's sort is stable). -/
def stableSortByKey {α : Type} (key : α → Int) (l : List α) : List α :=
  l.foldl (fun acc x => insertByKey key x acc) []

/-- Models `state.ranked_results = v`: `AgentState` (state.py) declares no
field `ranked_results`, so pydantic's `BaseModel.__setattr__` raises
`ValueError("object has no field ...")`. -/
def pySetRankedResults (_s : AgentState) (_v : List SearchResult) :
    Except PyExc AgentState :=
  .error (.valueErrorNoField "ranked_results")

/-- Models `r.reputability_score = v` (value `11.0 - float(rank)` or `0.0`,
exactly integral, carried as `Int`): `SearchResult` (state.py) declares no
field `reputability_score`, so pydantic raises `ValueError`. -/
def pySetReputabilityScore (_r : SearchResult) (_v : Int) :
    Except PyExc SearchResult :=
  .error (.valueErrorNoField "reputability_score")

/-- Models reading `r.reputability_score`: `SearchResult` (state.py)
declares no such field, so pydantic's `__getattr__` raises
`AttributeError`. -/
def pyGetReputabilityScore (_r : SearchResult) :
    Except PyExc (Option Int) :=
  .error (.attributeErrorNoField "reputability_score")

/-- One proposed ranking entry as prioritize.py line 92-96 reads it from the
parsed LLM JSON: a non-dict element, or a dict whose `url` is a string
(`""` for a falsy or missing one) and whose `rank` is `some` integer when
`isinstance(rank, (int, float))` holds (after `int(rank)`), else `none`. -/
inductive RankJson where
  | notDict
  | entry (url : String) (rank : Option Int)
deriving Repr, DecidableEq

/-- The LLM interaction as prioritize.py sees it inside its `try`. -/
inductive RankLlm where
  /-- The OpenAI call raised (handled by `except Exception`, line 135). -/
  | callError
  /-- `resp.choices[0].message.content` is falsy (line 78). -/
  | emptyContent
  /-- `json.loads(content)` raised `json.JSONDecodeError` (handled at
  line 128). -/
  | invalidJson
  /-- `json.loads(content)` yielded a list of elements. -/
  | parsed (entries : List RankJson)
deriving Repr, DecidableEq

/-- Mirrors the first pass of prioritize.py lines 92-107: for each
well-formed entry, find the first result matching via `_match_url`, record
`ranked_map[_normalize_url(r.url)] = rank`, then assign the result's
`reputability_score = 11.0 - float(rank)` — an assignment that raises
because `SearchResult` declares no such field. Returns the `ranked_map`
accumulated so far, or the first exception. -/
def rankFirstPass (results : List SearchResult) :
    List RankJson → List (String × Int) → Except PyExc (List (String × Int))
  | [], m => .ok m
  | .notDict :: es, m => rankFirstPass results es m
  | .entry url rank :: es, m =>
    match rank with
    | none => rankFirstPass results es m
    | some rk =>
      if url = "" then rankFirstPass results es m
      else
        match results.find? (fun r => _match_url url r.url) with
        | none => rankFirstPass results es m
        | some r =>
          let m' := dictInsert m (_normalize_url r.url) rk
          match pySetReputabilityScore r (11 - rk) with
          | .error e => .error e
          | .ok _ => rankFirstPass results es m'

/-- Mirrors the fallback score loops of prioritize.py (lines 56-58, 82-84,
112-115, 131-134, 138-141): read each result's `reputability_score` and
assign `0.0` where it is `None`. The very first read raises
`AttributeError` because `SearchResult` declares no such field. -/
def scoreFillZero : List SearchResult → Except PyExc (List SearchResult)
  | [] => .ok []
  | r :: rest => do
    let sc ← pyGetReputabilityScore r
    match sc with
    | none => do
      let r' ← pySetReputabilityScore r 0
      let rest' ← scoreFillZero rest
      .ok (r' :: rest')
    | some _ => do
      let rest' ← scoreFillZero rest
      .ok (r :: rest')

/-- Mirrors the post-sort score check of prioritize.py lines 120-126: read
each ranked result's `reputability_score` and, where `None`, assign
`11.0 - float(ranked_map.get(normalized, 10))`. The first read raises. -/
def scoreFillFromMap (m : List (String × Int)) :
    List SearchResult → Except PyExc (List SearchResult)
  | [] => .ok []
  | r :: rest => do
    let sc ← pyGetReputabilityScore r
    match sc with
    | none => do
      let rank := (dictGet m (_normalize_url r.url)).getD 10
      let r' ← pySetReputabilityScore r (11 - rank)
      let rest' ← scoreFillFromMap m rest
      .ok (r' :: rest')
    | some _ => do
      let rest' ← scoreFillFromMap m rest
      .ok (r :: rest')

/-- Mirrors the fallback blocks of prioritize.py (lines 54-58, 80-84,
111-115, 130-134, 137-141): assign
`state.ranked_results = results[:PRIORITIZE_MAX_RESULTS]` — which raises
`ValueError` because `AgentState` declares no field `ranked_results` — then
(unreachably) default-score the kept results. -/
def rankingFallback (s : AgentState) (results : List SearchResult) :
    Except PyExc AgentState := do
  let s' ← pySetRankedResults s (results.take PRIORITIZE_MAX_RESULTS)
  let _ ← scoreFillZero (results.take PRIORITIZE_MAX_RESULTS)
  .ok s'

/-- Mirrors the body of prioritize.py's `try` after a successful parse
(lines 88-126): first pass over the entries; if `ranked_map` stayed empty,
the no-match fallback; else sort the results by
`ranked_map.get(_normalize_url(r.url), 999)` (Python's stable `sorted`),
truncate to the cap, store them in `state.ranked_results` (an assignment
that raises) and run the post-sort score check. -/
def prioritizeTryBody (entries : List RankJson) (results : List SearchResult)
    (s : AgentState) : Except PyExc AgentState := do
  let m ← rankFirstPass results entries []
  if m.isEmpty then
    rankingFallback s results
  else
    let key := fun r => ((dictGet m (_normalize_url r.url)).getD 999 : Int)
    let sorted_results := (stableSortByKey key results).take PRIORITIZE_MAX_RESULTS
    let s' ← pySetRankedResults s sorted_results
    let _ ← scoreFillFromMap m sorted_results
    .ok s'

/-- Mirrors `prioritize_sources` of prioritize.py lines 37-144. Empty
results: `state.ranked_results = []` (line 48, raises — no such field).
Missing LLM key: the fallback block at lines 54-58 (line 54 raises). Inside
the `try`, an LLM failure, empty content, or invalid JSON routes to the
corresponding fallback block; an exception escaping the try body is caught
by `except json.JSONDecodeError` (line 128) or `except Exception`
(line 135), whose handlers run the same fallback block — whose own first
assignment raises and propagates out of the stage. -/
def prioritize_sources (hasKey : Bool) (llm : RankLlm) (s : AgentState) :
    Except PyExc AgentState :=
  let results := s.results.getD []
  if results.isEmpty then
    pySetRankedResults s []
  else if ¬ hasKey then
    rankingFallback s results
  else
    match llm with
    | .callError => rankingFallback s results
    | .emptyContent => rankingFallback s results
    | .invalidJson => rankingFallback s results
    | .parsed entries =>
      match prioritizeTryBody entries results s with
      | .ok s' => .ok s'
      | .error _ => rankingFallback s results

/-- The `id` value of a proposed citation dict as synthesize.py line 186
coerces it: `coercible n` when `int(cid)` yields `n` (int, float, numeric
string), `noncoercible` when `int(cid)` raises `ValueError`/`TypeError`
(caught at lines 195-200, the entry is skipped). -/
inductive JsonId where
  | coercible (n : Int)
  | noncoercible
deriving Repr, DecidableEq

/-- One element of the parsed LLM `citations` list as synthesize.py lines
157-164 reads it: a non-dict element, or a dict with an optional `id`
(`none` when missing or `None`), a `title` (`""` default) and a `url`
(`""` default). -/
inductive CitEntry where
  | notDict
  | entry (id : Option JsonId) (title : String) (url : String)
deriving Repr, DecidableEq

/-- Mirrors synthesize.py lines 150-153: `url_to_result[r.url] = r` over
`state.results` (a Python dict — a later result with the same URL
overwrites an earlier one). -/
def buildUrlMap (results : List SearchResult) : List (String × SearchResult) :=
  results.foldl (fun m r => dictInsert m r.url r) []

/-- Mirrors the per-entry validation of synthesize.py lines 157-200: skip a
non-dict entry, an entry whose `id` is missing, and one whose `id` is not
coercible to `int`; otherwise build the `Citation`, back-filling
`extended_snippet` from the exact-URL lookup in `url_to_result`. -/
def validateCitation (m : List (String × SearchResult)) : CitEntry → Option Citation
  | .notDict => none
  | .entry none _ _ => none
  | .entry (some .noncoercible) _ _ => none
  | .entry (some (.coercible n)) title url =>
    some { id := n, title := title, url := url, image := none
           extended_snippet := (dictGet m url).bind (fun r => r.extended_snippet) }

/-- Mirrors the accumulation loop of synthesize.py lines 156-200: surviving
citations in LLM-given order. -/
def citationLoop (m : List (String × SearchResult)) : List CitEntry → List Citation
  | [] => []
  | e :: es =>
    match validateCitation m e with
    | none => citationLoop m es
    | some c => c :: citationLoop m es

/-- Mirrors synthesize.py lines 144-203 for a parsed response: the
citations stored into `state.citations` — the survivors of the entry-wise
validation, truncated to the first 5 (`citations[:5]`, line 203). -/
def synthCitations (results : List SearchResult) (cits : List CitEntry) : List Citation :=
  (citationLoop (buildUrlMap results) cits).take 5

/-- The `(id, title, url)` triple a well-formed proposed entry carries,
`none` for an entry the validation drops. -/
def projEntry : CitEntry → Option (Int × String × String)
  | .entry (some (.coercible n)) title url => some (n, title, url)
  | _ => none

/-- Mirrors the has-image test of enrich_images.py line 313:
`citation.image is not None and citation.image.strip()` — a non-null,
non-blank image. -/
def hasImage (c : Citation) : Bool :=
  match c.image with
  | some s => strTrim s ≠ ""
  | none => false

/-- Mirrors enrich_images.py lines 350-361 for one citation needing an
image: the worker's outcome (`fetch c`, `none` for any caught failure) is
stored only when truthy (`if image_url:`, line 354); a citation that
already has an image is skipped (lines 312-315). -/
def applyFetch (fetch : Citation → Option String) (c : Citation) : Citation :=
  if hasImage c then c
  else
    match fetch c with
    | some url => if url ≠ "" then { c with image := some url } else c
    | none => c

/-- Mirrors the overview-image backfill of enrich_images.py lines 281-295:
only when `overview_image` is falsy and the query is non-empty, one
image-search call (`ovFetch` is its outcome) whose truthy result is stored;
a falsy result leaves the field unset. -/
def enrichOverview (ovFetch : Option String) (s : AgentState) : AgentState × Nat :=
  match toTruthy s.overview_image with
  | some _ => (s, 0)
  | none =>
    if s.query ≠ "" then
      match toTruthy ovFetch with
      | some img => ({ s with overview_image := some img }, 1)
      | none => (s, 1)
    else (s, 0)

/-- Mirrors the citation fan-out of enrich_images.py lines 297-362: no
citations, or none lacking an image — nothing to do; otherwise apply each
worker's outcome to its own citation. -/
def enrichCitations (fetch : Citation → Option String) (s : AgentState) :
    AgentState × Nat :=
  let cits := s.citations.getD []
  if cits.isEmpty then (s, 0)
  else
    let toEnrich := cits.filter (fun c => ¬ hasImage c)
    if toEnrich.isEmpty then (s, 0)
    else ({ s with citations := some (cits.map (applyFetch fetch)) }, toEnrich.length)

/-- Mirrors `enrich_images` of enrich_images.py lines 263-366. Credentials
missing: return the state unchanged, no calls (lines 276-279). Otherwise
the overview-image backfill, then the per-citation fan-out (each worker's
outcome applied only to its own citation; scheduling order is irrelevant
because workers write to disjoint citations, so the concurrent fan-out is
modelled by a map). The second component counts provider interactions
(one per dispatched search task). -/
def enrich_images (hasKey hasZone : Bool) (ovFetch : Option String)
    (fetch : Citation → Option String) (s : AgentState) : AgentState × Nat :=
  if ¬ hasKey then (s, 0)
  else if ¬ hasZone then (s, 0)
  else
    let p1 := enrichOverview ovFetch s
    let p2 := enrichCitations fetch p1.1
    (p2.1, p1.2 + p2.2)

/-- Mirrors format_output.py lines 33-39: the assistant turn's text — the
overview followed by `"\n\ntitle: content"` for each topic. -/
def mkFullResponse (overview : String) (topics : List Topic) : String :=
  topics.foldl (fun acc t => acc ++ "\n\n" ++ t.title ++ ": " ++ t.content) overview

/-- Models the `sources` list comprehension of format_output.py lines
47-49: serialize the citations left to right, stopping with `none` when
`serialize` raises on one (the comprehension propagates the exception). -/
def traverseSer (serialize : Citation → Option Citation) :
    List Citation → Option (List Citation)
  | [] => some []
  | c :: cs =>
    match serialize c with
    | none => none
    | some d => (traverseSer serialize cs).map (fun ds => d :: ds)

/-- Mirrors `format_output` of format_output.py lines 13-70. `ts` is the
timestamp generated at line 24 and `fallback_ts` the one at line 59;
`serialize` models `Citation.model_dump(mode="json")`, with `none` for a
dump that raises. The overview (`state.overview or state.answer or ""`),
when truthy, first appends the assistant turn to `history` (lines 33-39);
then the payload is assembled — and if serialization of a citation raises,
the `except` block (lines 56-67) writes the fallback payload with empty
`sources` while the already-appended history turn stays. -/
def format_output (ts fallback_ts : String) (serialize : Citation → Option Citation)
    (s : AgentState) : AgentState :=
  let overview := (toTruthy s.overview).getD ((toTruthy s.answer).getD "")
  let topics := s.topics.getD []
  let s1 :=
    if overview ≠ "" then
      { s with history := s.history ++ [{ role := "assistant", content := mkFullResponse overview topics }] }
    else s
  match traverseSer serialize (s.citations.getD []) with
  | some srcs =>
    let p : Payload :=
      { question := s.query, overview := overview, overview_image := s.overview_image,
        topics := topics, sources := srcs, timestamp := ts }
    { s1 with final_payload := some p }
  | none =>
    let p : Payload :=
      { question := s.query
        overview := (toTruthy s.overview).getD ((toTruthy s.answer).getD "")
        overview_image := s.overview_image
        topics := s.topics.getD []
        sources := []
        timestamp := fallback_ts }
    { s1 with final_payload := some p }

/-- Auxiliary for C3: the first ranking pass either raises the
`reputability_score` assignment error at its first matching entry, or
finishes with the map it was given (no entry matched). -/
theorem rankFirstPass_cases (results : List SearchResult) :
    ∀ (entries : List RankJson) (m : List (String × Int)),
      rankFirstPass results entries m = .error (.valueErrorNoField "reputability_score") ∨
      rankFirstPass results entries m = .ok m := by
  intro entries
  induction entries with
  | nil => intro m; right; rfl
  | cons e es ih =>
    intro m
    cases e with
    | notDict => exact ih m
    | entry url rank =>
      cases rank with
      | none => exact ih m
      | some rk =>
        by_cases hu : url = ""
        · simp only [rankFirstPass, hu, if_pos rfl]
          exact ih m
        · simp only [rankFirstPass, if_neg hu]
          cases hf : results.find? (fun r => _match_url url r.url) with
          | none => exact ih m
          | some r => left; rfl

/-- C1: the claim says the search stage never propagates an exception and
degrades to `results = []` on any provider failure or malformed payload, so
that the pipeline always produces a final payload. Evaluating the embedded
stage at the failing input: when the provider envelope's `body` field is a
string that is not parseable JSON, `json.loads` raises
`json.JSONDecodeError`, which the stage's only handler
(`except requests.exceptions.RequestException`) does not catch, so the
exception propagates and the pipeline run aborts with no `final_payload`;
a transport error, by contrast, does degrade to `results = []`. -/
theorem c1_search_nonjson_body_raises :
    search true true (.bodyString "<html>not json</html>" none) { query := "q" } =
      .error .jsonDecodeError ∧
    search true true .transportError { query := "q" } =
      .ok { query := "q", results := some [] } :=
  ⟨rfl, rfl⟩

/-- C2: the claim describes the success path of the ranking stage (resolve
each `{url, rank}` entry to the first matching result, set its credibility
score to `11 - rank`, store the stably sorted, truncated list in
`ranked_results`). Evaluating the embedded stage at such an input: the very
first score assignment (prioritize.py line 106) raises `ValueError` because
`SearchResult` (state.py) declares no field `reputability_score`; the
`except Exception` handler then runs the fallback assignment
`state.ranked_results = ...` (line 137), which itself raises `ValueError`
because `AgentState` declares no field `ranked_results`, and that exception
propagates out of the stage. -/
theorem c2_prioritize_success_path_raises :
    rankFirstPass
        [{ title := "A", url := "https://a.com", snippet := "", domain := "a.com" }]
        [.entry "a.com" (some 1)] [] =
      .error (.valueErrorNoField "reputability_score") ∧
    prioritize_sources true (.parsed [.entry "a.com" (some 1), .entry "b.org" (some 2)])
        { query := "q"
          results := some
            [{ title := "A", url := "https://a.com", snippet := "", domain := "a.com" },
             { title := "B", url := "https://b.org", snippet := "", domain := "b.org" }] } =
      .error (.valueErrorNoField "ranked_results") :=
  ⟨rfl, rfl⟩

/-- C3: the claim says every fallback trigger (missing LLM credential,
failed call, unparseable output, no matching ranking entry) makes the stage
set `ranked_results` to the first `min(len(results), cap)` results with
non-null scores. On the embedded code, for every state with a non-empty
results list, every one of those triggers instead raises `ValueError`
("object has no field ranked_results") at the fallback assignment itself,
because `AgentState` (state.py) declares no `ranked_results` field — this
holds for every LLM outcome and every parsed entries list. -/
theorem c3_prioritize_fallback_raises (llm : RankLlm) (entries : List RankJson)
    (s : AgentState) (h : s.results.getD [] ≠ []) :
    prioritize_sources false llm s = .error (.valueErrorNoField "ranked_results") ∧
    prioritize_sources true .callError s = .error (.valueErrorNoField "ranked_results") ∧
    prioritize_sources true .emptyContent s = .error (.valueErrorNoField "ranked_results") ∧
    prioritize_sources true .invalidJson s = .error (.valueErrorNoField "ranked_results") ∧
    prioritize_sources true (.parsed entries) s = .error (.valueErrorNoField "ranked_results") := by
  obtain ⟨r, rs, hres⟩ : ∃ r rs, s.results.getD [] = r :: rs := by
    cases hres : s.results.getD [] with
    | nil => exact absurd hres h
    | cons a as => exact ⟨a, as, rfl⟩
  have hfb : ∀ l : List SearchResult,
      rankingFallback s l = .error (.valueErrorNoField "ranked_results") := fun l => rfl
  refine ⟨?_, ?_, ?_, ?_, ?_⟩
  · simp [prioritize_sources, hres, hfb]
  · simp [prioritize_sources, hres, hfb]
  · simp [prioritize_sources, hres, hfb]
  · simp [prioritize_sources, hres, hfb]
  · rcases rankFirstPass_cases (s.results.getD []) entries [] with hfp | hfp
    · rw [hres] at hfp
      simp [prioritize_sources, hres, prioritizeTryBody, hfp, hfb]
      rfl
    · rw [hres] at hfp
      simp [prioritize_sources, hres, prioritizeTryBody, hfp, hfb]
      rfl

/-- C3 witness: the fallback triggers at a concrete one-result state. -/
theorem c3_witness :
    ({ query := "q", results := some [{ title := "A", url := "https://a.com", snippet := "", domain := "a.com" }] } : AgentState).results.getD [] ≠ [] ∧
    prioritize_sources false .callError
      { query := "q", results := some [{ title := "A", url := "https://a.com", snippet := "", domain := "a.com" }] } =
      .error (.valueErrorNoField "ranked_results") :=
  ⟨by decide,
   (c3_prioritize_fallback_raises .callError []
     { query := "q", results := some [{ title := "A", url := "https://a.com", snippet := "", domain := "a.com" }] }
     (by decide)).1⟩

/-- C4 counterexample: the claim says `normalize` strips a SINGLE trailing
slash, but the source uses `str.rstrip("/")`, which strips them all: on
`"example.com//"` the code yields `"example.com"` while the claim's wording
(`claimNormalizeSingleSlash`) yields `"example.com/"`. -/
theorem c4_counterexample_all_slashes :
    _normalize_url "example.com//" = "example.com" ∧
    claimNormalizeSingleSlash "example.com//" = "example.com/" ∧
    _normalize_url "example.com//" ≠ claimNormalizeSingleSlash "example.com//" :=
  ⟨by decide, by decide, by decide⟩

/-- C4 (amended): for every input string, `normalize` lower-cases it,
strips surrounding whitespace, strips ALL trailing slashes, strips a
leading `http://` and then a leading `https://` scheme, and strips a
leading `www.`; in particular
`normalize("HTTP://WWW.Example.com/Path/") = normalize("example.com/Path")`. -/
theorem c4_normalize_amended :
    (∀ url : String, _normalize_url url = amendedNormalize url) ∧
    _normalize_url "HTTP://WWW.Example.com/Path/" = _normalize_url "example.com/Path" :=
  ⟨fun _ => rfl, by decide⟩

/-- C5: for every pair of URL strings, `match` is true exactly when the
normalized forms are equal or the first path segments (the domain before
the first slash) of the normalized forms are equal; hence it is true for
two URLs differing only by scheme, `www.` prefix, or trailing slash, and
false for URLs on different domains. -/
theorem c5_match_url_spec :
    (∀ a b : String, _match_url a b = true ↔
      (_normalize_url a = _normalize_url b ∨
        firstSegment (_normalize_url a) = firstSegment (_normalize_url b))) ∧
    _match_url "http://example.com/p" "https://example.com/p" = true ∧
    _match_url "www.example.com/p" "example.com/p" = true ∧
    _match_url "example.com/p/" "example.com/p" = true ∧
    _match_url "http://example.com/p" "https://www.example.com/p/" = true ∧
    _match_url "example.com/p" "different.org/p" = false := by
  refine ⟨?_, by decide, by decide, by decide, by decide, by decide⟩
  intro a b
  by_cases h : _normalize_url a = _normalize_url b
  · simp [_match_url, h]
  · simp [_match_url, h]

/-- Auxiliary for C6: the accumulation loop keeps exactly the entries the
validation accepts, in order. -/
theorem citationLoop_eq_filterMap (m : List (String × SearchResult)) :
    ∀ cits : List CitEntry, citationLoop m cits = cits.filterMap (validateCitation m) := by
  intro cits
  induction cits with
  | nil => rfl
  | cons e es ih =>
    cases hv : validateCitation m e with
    | none => simp [citationLoop, hv, List.filterMap_cons, ih]
    | some c => simp [citationLoop, hv, List.filterMap_cons, ih]

/-- Auxiliary for C6: the `(id, title, url)` data of the survivors is the
in-order projection of the well-formed proposed entries — the stage invents
and reorders nothing. -/
theorem survivors_proj (m : List (String × SearchResult)) :
    ∀ cits : List CitEntry,
      (cits.filterMap (validateCitation m)).map (fun c => (c.id, c.title, c.url)) =
        cits.filterMap projEntry := by
  intro cits
  induction cits with
  | nil => rfl
  | cons e es ih =>
    cases e with
    | notDict => simpa [List.filterMap_cons, validateCitation, projEntry] using ih
    | entry idv t u =>
      cases idv with
      | none => simpa [List.filterMap_cons, validateCitation, projEntry] using ih
      | some j =>
        cases j with
        | coercible n => simpa [List.filterMap_cons, validateCitation, projEntry] using ih
        | noncoercible => simpa [List.filterMap_cons, validateCitation, projEntry] using ih

/-- C6: for every parsed synthesis response, each citation entry that is
not a dict, lacks an `id`, or has a non-coercible `id` is dropped while
valid sibling entries survive (the survivors are exactly the filterMap of
the entry-wise validation, in LLM-given order); the stored list is the
first-5 truncation of the survivors: at most 5 entries, a sublist (hence a
never-reordered subset) of the survivors, whose `(id, title, url)` data is
the in-order projection of the valid proposed entries. -/
theorem c6_synthesize_citations (results : List SearchResult) (cits : List CitEntry) :
    synthCitations results cits =
      (cits.filterMap (validateCitation (buildUrlMap results))).take 5 ∧
    (synthCitations results cits).length ≤ 5 ∧
    List.Sublist (synthCitations results cits)
      (cits.filterMap (validateCitation (buildUrlMap results))) ∧
    (cits.filterMap (validateCitation (buildUrlMap results))).map
        (fun c => (c.id, c.title, c.url)) = cits.filterMap projEntry ∧
    validateCitation (buildUrlMap results) .notDict = none ∧
    (∀ t u : String, validateCitation (buildUrlMap results) (.entry none t u) = none) ∧
    (∀ t u : String,
      validateCitation (buildUrlMap results) (.entry (some .noncoercible) t u) = none) := by
  refine ⟨?_, ?_, ?_, survivors_proj _ cits, rfl, fun t u => rfl, fun t u => rfl⟩
  · simp [synthCitations, citationLoop_eq_filterMap]
  · simp [synthCitations, citationLoop_eq_filterMap, List.length_take]
  · rw [synthCitations, citationLoop_eq_filterMap]
    exact List.take_sublist 5 _

/-- The per-citation image invariant relating a citation before the
enrichment stage to the same citation after it: a non-null non-blank image
is kept verbatim; the image is never reset to null; and any change goes
from a null/blank image to some non-empty found URL. -/
def imagePreserved (c c' : Citation) : Prop :=
  (∀ v : String, c.image = some v → strTrim v ≠ "" → c'.image = some v) ∧
  (c'.image = none → c.image = none) ∧
  (c'.image ≠ c.image → hasImage c = false ∧ ∃ u : String, c'.image = some u ∧ u ≠ "")

/-- Auxiliary for C9: `imagePreserved` holds between a citation and
itself. -/
theorem imagePreserved_refl (c : Citation) : imagePreserved c c :=
  ⟨fun _ hv _ => hv, fun hn => hn, fun hne => absurd rfl hne⟩

/-- Auxiliary for C9: one worker's outcome applied to its own citation
respects the image invariant. -/
theorem applyFetch_imagePreserved (fetch : Citation → Option String) (c : Citation) :
    imagePreserved c (applyFetch fetch c) := by
  by_cases hhas : hasImage c
  · simp [applyFetch, hhas, imagePreserved_refl]
  · cases hf : fetch c with
    | none => simp [applyFetch, hhas, hf, imagePreserved_refl]
    | some url =>
      by_cases hu : url = ""
      · simp [applyFetch, hhas, hf, hu, imagePreserved_refl]
      · refine ⟨?_, ?_, ?_⟩
        · intro v hv hblank
          exfalso
          have : hasImage c = true := by simp [hasImage, hv, hblank]
          exact hhas (by simpa using this)
        · intro hn
          exfalso
          simp [applyFetch, hhas, hf, hu] at hn
        · intro _
          refine ⟨by simpa using hhas, url, ?_, hu⟩
          simp [applyFetch, hhas, hf, hu]

/-- Auxiliary for C9: mapping a function that respects `imagePreserved`
over a citation list yields a `Forall₂`-related list. -/
theorem forall₂_map_applyFetch (fetch : Citation → Option String) :
    ∀ l : List Citation, List.Forall₂ imagePreserved l (l.map (applyFetch fetch)) := by
  intro l
  induction l with
  | nil => simp
  | cons c cs ih => exact List.Forall₂.cons (applyFetch_imagePreserved fetch c) ih

/-- C7: for every state in which the image-provider API key or zone is
missing, the enrichment stage returns the state unchanged — no field
mutated — and attempts no provider calls (the call counter is 0). -/
theorem c7_enrich_no_credentials (hk hz : Bool) (ov : Option String)
    (fetch : Citation → Option String) (s : AgentState)
    (h : hk = false ∨ hz = false) :
    enrich_images hk hz ov fetch s = (s, 0) := by
  rcases h with h | h
  · subst h; rfl
  · subst h
    cases hk with
    | false => rfl
    | true => rfl

/-- C7 witness: a concrete state with a missing API key is returned
unchanged with zero provider calls. -/
theorem c7_witness :
    enrich_images false true (some "http://img")
      (fun _ => some "http://img2")
      { query := "q", citations := some [{ id := 1, title := "t", url := "u" }] } =
      ({ query := "q", citations := some [{ id := 1, title := "t", url := "u" }] }, 0) :=
  c7_enrich_no_credentials false true (some "http://img")
    (fun _ => some "http://img2")
    { query := "q", citations := some [{ id := 1, title := "t", url := "u" }] }
    (Or.inl rfl)

/-- Auxiliary for C9: the overview-image backfill never touches the
citations. -/
theorem enrichOverview_citations (ov : Option String) (s : AgentState) :
    ((enrichOverview ov s).1).citations = s.citations := by
  rw [enrichOverview]
  cases toTruthy s.overview_image with
  | some img => rfl
  | none =>
    by_cases hq : s.query ≠ ""
    · cases toTruthy ov with
      | some img => simp [hq]
      | none => simp [hq]
    · simp [hq]

/-- Auxiliary for C9: the citation fan-out either leaves the citation list
unchanged or replaces it by the worker-outcome map. -/
theorem enrichCitations_cases (fetch : Citation → Option String) (s : AgentState) :
    ((enrichCitations fetch s).1).citations.getD [] = s.citations.getD [] ∨
    ((enrichCitations fetch s).1).citations.getD [] =
      (s.citations.getD []).map (applyFetch fetch) := by
  rw [enrichCitations]
  cases h1 : (s.citations.getD []).isEmpty with
  | true => left; simp only [h1]; simp
  | false =>
    cases h2 : ((s.citations.getD []).filter (fun c => ¬ hasImage c)).isEmpty with
    | true => left; simp only [h1, h2]; simp
    | false => right; simp only [h1, h2]; simp

/-- C9: the enrichment stage never clears or overwrites an existing
citation image: for every input, the citation lists before and after the
stage are pointwise related by `imagePreserved` — a non-null non-blank
image survives verbatim, an image is never set back to null, and any
change is from a null/blank image to a found non-empty URL. -/
theorem c9_enrich_image_invariant (hk hz : Bool) (ov : Option String)
    (fetch : Citation → Option String) (s : AgentState) :
    List.Forall₂ imagePreserved (s.citations.getD [])
      (((enrich_images hk hz ov fetch s).1).citations.getD []) := by
  have hrefl : ∀ l : List Citation, List.Forall₂ imagePreserved l l := by
    intro l
    exact List.forall₂_same.mpr (fun c _ => imagePreserved_refl c)
  cases hk with
  | false => exact hrefl _
  | true =>
    cases hz with
    | false => exact hrefl _
    | true =>
      have hmain : (enrich_images true true ov fetch s).1 =
          (enrichCitations fetch (enrichOverview ov s).1).1 := by
        rw [enrich_images]
        simp
      rw [hmain]
      rcases enrichCitations_cases fetch (enrichOverview ov s).1 with hc | hc <;>
        rw [hc, enrichOverview_citations]
      · exact hrefl _
      · exact forall₂_map_applyFetch fetch _

/-- Auxiliary for C8: the real serializer (`model_dump` on a well-formed
`Citation`) never raises, and serializing left to right returns the list
itself. -/
theorem traverseSer_total :
    ∀ l : List Citation, traverseSer (fun c => some c) l = some l := by
  intro l
  induction l with
  | nil => rfl
  | cons c cs ih => simp [traverseSer, ih]

/-- Auxiliary for C8: on the total serializer, the stage stores the success
payload built from the state's query, overview/answer, overview image,
topics and citations, stamped with the given timestamp. -/
theorem format_output_payload (ts fallback_ts : String) (s : AgentState) :
    (format_output ts fallback_ts (fun c => some c) s).final_payload = some
      { question := s.query
        overview := (toTruthy s.overview).getD ((toTruthy s.answer).getD "")
        overview_image := s.overview_image
        topics := s.topics.getD []
        sources := s.citations.getD []
        timestamp := ts } := by
  rw [format_output]
  rw [traverseSer_total]

/-- C8: for every pipeline state, running the Formatter twice on the same
state value produces two payloads that are identical in every field except
the timestamp — the payload depends only on the query, overview/answer,
overview image, topics and citations, none of which the Formatter changes. -/
theorem c8_format_idempotent_mod_timestamp (ts1 ts2 : String) (s : AgentState) :
    ∃ p1 p2 : Payload,
      (format_output ts1 ts1 (fun c => some c) s).final_payload = some p1 ∧
      (format_output ts2 ts2 (fun c => some c) s).final_payload = some p2 ∧
      p1.question = p2.question ∧
      p1.overview = p2.overview ∧
      p1.overview_image = p2.overview_image ∧
      p1.topics = p2.topics ∧
      p1.sources = p2.sources ∧
      p1.timestamp = ts1 ∧ p2.timestamp = ts2 := by
  refine ⟨_, _, format_output_payload ts1 ts1 s, format_output_payload ts2 ts2 s,
    rfl, rfl, rfl, rfl, rfl, rfl, rfl⟩

/-- C10: the Formatter appends the assistant turn to history before
assembling the payload, so when serialization of a citation then raises
(`traverseSer ... = none`), the fallback payload with empty sources is
written while the already-appended history turn is not rolled back — the
stage's error path is not atomic with respect to history. -/
theorem c10_format_history_not_rolled_back (ts fallback_ts : String)
    (serialize : Citation → Option Citation) (s : AgentState)
    (hov : (toTruthy s.overview).getD ((toTruthy s.answer).getD "") ≠ "")
    (hser : traverseSer serialize (s.citations.getD []) = none) :
    (format_output ts fallback_ts serialize s).history =
      s.history ++
        [{ role := "assistant"
           content := mkFullResponse
             ((toTruthy s.overview).getD ((toTruthy s.answer).getD ""))
             (s.topics.getD []) }] ∧
    (format_output ts fallback_ts serialize s).final_payload = some
      { question := s.query
        overview := (toTruthy s.overview).getD ((toTruthy s.answer).getD "")
        overview_image := s.overview_image
        topics := s.topics.getD []
        sources := []
        timestamp := fallback_ts } := by
  rw [format_output]
  rw [hser]
  simp [hov]

/-- C10 witness: at a concrete state with an overview and one citation
whose serialization raises, the history keeps the appended turn and the
fallback payload has empty sources. -/
theorem c10_witness :
    (format_output "T1" "T2" (fun _ => none)
        { query := "q", overview := some "ans",
          citations := some [{ id := 1, title := "t", url := "u" }] }).history =
      [{ role := "assistant", content := "ans" }] ∧
    (format_output "T1" "T2" (fun _ => none)
        { query := "q", overview := some "ans",
          citations := some [{ id := 1, title := "t", url := "u" }] }).final_payload = some
      { question := "q", overview := "ans", overview_image := none,
        topics := [], sources := [], timestamp := "T2" } :=
  c10_format_history_not_rolled_back "T1" "T2" (fun _ => none)
    { query := "q", overview := some "ans",
      citations := some [{ id := 1, title := "t", url := "u" }] }
    (by decide) rfl
